import Mathlib

/-!
Shallow embedding of the benchmark orchestration core of `llm_tester.py`
(the `perform_test`, `perform_comparison_test` and `perform_comparison`
methods of the `LLMTester` class), for checking the natural-language
specification against the code.

Modelling conventions:
* Numeric values (token counts, durations, throughputs) are modelled in
  exact rational arithmetic (`ℚ`).  The Python source uses IEEE floats;
  the arithmetic identities of the spec (for example `3 * 1.3 == 3.9`)
  are intended and stated in exact arithmetic.
* The decoded JSON response body is modelled by `JVal` / a top-level
  association list `List (String × JVal)`.  The code only ever reads
  well-typed fields; a body so malformed that a Python attribute lookup
  would raise inside the `try` block is covered by the `HttpOutcome.exn`
  constructor, which models any exception thrown during a run.
* The HTTP world is an oracle: each loop iteration `i` of
  `for i in range(num_runs)` consumes one `HttpOutcome`, which is either
  an exception (`requests.post` or any later statement raising) or a
  response with a status code, a wall-clock duration
  (`end_time - start_time`) and a decoded JSON body.
* Python dict literals built for each run are modelled as association
  lists `List (String × RVal)` in the literal key order of the source.
-/

namespace LlmTester

/-- A decoded JSON value, as far as the benchmark code inspects it. -/
inductive JVal where
  | num (q : ℚ)
  | str (s : String)
  | arr (xs : List JVal)
  | obj (fields : List (String × JVal))

/-- Field lookup in a decoded JSON object (first match wins, as in a
Python dict where keys are unique). -/
def lookupField : List (String × JVal) → String → Option JVal
  | [], _ => none
  | (k, v) :: rest, key => if key = k then some v else lookupField rest key

/-- Python `v[k]` / `k in v` support on a JSON value: `some` only when
`v` is an object holding the key. -/
def JVal.getField : JVal → String → Option JVal
  | .obj fs, k => lookupField fs k
  | _, _ => none

/-- Python `v.get(k, d)` on an object value. -/
def jgetD (v : JVal) (k : String) (d : JVal) : JVal :=
  (v.getField k).getD d

/-- Read a JSON value as a number; the benchmark code only meets numbers
at the positions where this is used. -/
def asNum : JVal → ℚ
  | .num q => q
  | _ => 0

/-- Read a JSON value as a string; the benchmark code only meets strings
at the positions where this is used. -/
def asStr : JVal → String
  | .str s => s
  | _ => ""

/-- Number of maximal non-whitespace runs of a character list: the value
of `len(text.split())` in Python.  The boolean flag records whether the
previous character was inside a word. -/
def pyWordCountAux : List Char → Bool → Nat
  | [], _ => 0
  | c :: cs, inWord =>
    if c.isWhitespace then pyWordCountAux cs false
    else (if inWord then 0 else 1) + pyWordCountAux cs true

/-- `len(text.split())`: the number of whitespace-separated words. -/
def pyWordCount (s : String) : Nat :=
  pyWordCountAux s.data false

/-- The token estimation fallback of the source:
`len(generated_text.split()) * 1.3` (lines 2079, 2092, 2104, 2107 and the
corresponding comparison-mode lines). -/
def wordEstimate (s : String) : ℚ :=
  (pyWordCount s : ℚ) * (13 / 10)

/-- The provider discriminator of a profile. -/
inductive Provider where
  | openai
  | anthropic
  | openrouter
  | custom
deriving DecidableEq, Repr

/-- Python `base_url.rstrip(char)` for the slash character: drop every
trailing slash. -/
def rstripSlash (s : String) : String :=
  ⟨(s.data.reverse.dropWhile (fun c => c == '/')).reverse⟩

/-- The completion endpoint URL (source lines 2000-2006; identical logic
at lines 1141-1147 for comparison mode). -/
def apiUrl (provider : Provider) (baseUrl : String) : String :=
  match provider with
  | .openai => rstripSlash baseUrl ++ "/chat/completions"
  | .openrouter => rstripSlash baseUrl ++ "/chat/completions"
  | .anthropic => rstripSlash baseUrl ++ "/messages"
  | .custom => rstripSlash baseUrl ++ "/chat/completions"

/-- Response parsing for OpenAI and OpenRouter (source lines 2071-2079):
`tokens_generated = response_data.get("usage", {}).get("completion_tokens", 0)`,
`generated_text` from `choices[0].message.content` when present, and the
estimator fallback when the reported count is `0` and the text nonempty. -/
def parseOpenAI (rd : List (String × JVal)) : ℚ × String :=
  let tokens := asNum (jgetD ((lookupField rd "usage").getD (.obj [])) "completion_tokens" (.num 0))
  let text :=
    match lookupField rd "choices" with
    | some (.arr (c :: _)) => asStr (jgetD (jgetD c "message" (.obj [])) "content" (.str ""))
    | _ => ""
  let tokens2 := if tokens = 0 ∧ text ≠ "" then wordEstimate text else tokens
  (tokens2, text)

/-- Response parsing for Anthropic (source lines 2081-2092):
`generated_text` from `content[0].text` when present; when a `usage`
block exists, `tokens_generated = usage.get("output_tokens", 0)`,
otherwise the estimator fallback on the generated text. -/
def parseAnthropic (rd : List (String × JVal)) : ℚ × String :=
  let text :=
    match lookupField rd "content" with
    | some (.arr (c :: _)) =>
      match c.getField "text" with
      | some v => asStr v
      | none => ""
    | _ => ""
  let tokens :=
    match lookupField rd "usage" with
    | some u => asNum (jgetD u "output_tokens" (.num 0))
    | none => wordEstimate text
  (tokens, text)

/-- Response parsing for a custom provider (source lines 2094-2107):
reported `usage.completion_tokens` when present, else text from
`choices[0].text` or `choices[0].message.content` with the estimator,
else text from `output` with the estimator, else zero tokens and empty
text. -/
def parseCustom (rd : List (String × JVal)) : ℚ × String :=
  match (lookupField rd "usage").bind (fun u => u.getField "completion_tokens") with
  | some v => (asNum v, "")
  | none =>
    match lookupField rd "choices" with
    | some (.arr (c :: _)) =>
      let text :=
        match c.getField "text" with
        | some v => asStr v
        | none =>
          match c.getField "message" with
          | some m => asStr (jgetD m "content" (.str ""))
          | none => ""
      (wordEstimate text, text)
    | _ =>
      match lookupField rd "output" with
      | some v => (wordEstimate (asStr v), asStr v)
      | none => (0, "")

/-- Dispatch of the provider branches of the parsing section
(source lines 2071-2107 and 1211-1247): the pair is
`(tokens_generated, generated_text)` after the branch. -/
def parseResponse : Provider → List (String × JVal) → ℚ × String
  | .openai, rd => parseOpenAI rd
  | .openrouter, rd => parseOpenAI rd
  | .anthropic, rd => parseAnthropic rd
  | .custom, rd => parseCustom rd

/-- Outcome of one HTTP completion call: either some exception was
raised inside the `try` block, or `requests.post` returned a response
with a status code, a wall-clock duration and a decoded JSON body. -/
inductive HttpOutcome where
  | exn
  | resp (status : Nat) (durationSeconds : ℚ) (body : List (String × JVal))

/-- A value stored in a per-run result dict. -/
inductive RVal where
  | num (q : ℚ)
  | str (s : String)
deriving DecidableEq, Repr

/-- A per-run result dict, in the literal key order of the source. -/
abbrev RunRecord := List (String × RVal)

/-- Dict lookup on a run record. -/
def dget : RunRecord → String → Option RVal
  | [], _ => none
  | (k, v) :: rest, key => if key = k then some v else dget rest key

/-- Numeric dict lookup on a run record (the keys read this way are
always present and numeric by construction). -/
def dgetNum (r : RunRecord) (k : String) : ℚ :=
  match dget r k with
  | some (.num q) => q
  | _ => 0

/-- Python `text[:50]`: the first `n` characters of a string. -/
def strTake (s : String) (n : Nat) : String :=
  ⟨s.data.take n⟩

/-- The sample-text field of a test-mode run record (source line 2118):
`generated_text[:50] + "..." if generated_text else ""` — by Python
operator precedence, the conditional applies to the whole concatenation,
so a nonempty text always gains the `"..."` suffix. -/
def sampleField (text : String) : String :=
  if text ≠ "" then strTake text 50 ++ "..." else ""

/-- One iteration of the test-mode run loop (source lines 2054-2128) for
loop index `i` (zero-based): a non-200 status hits the `continue` at
line 2064 and an exception hits the handler at lines 2125-2128, in both
cases appending nothing; a 200 response appends the dict literal of
lines 2113-2119.  The function is total: no exception escapes the loop
body. -/
def performTestRun (p : Provider) (i : Nat) (oc : HttpOutcome) : Option RunRecord :=
  match oc with
  | .exn => none
  | .resp status dur body =>
    if status ≠ 200 then none
    else
      let parsed := parseResponse p body
      let tps := if dur > 0 then parsed.1 / dur else 0
      some [("run", .num ((i : ℚ) + 1)),
            ("tokens_generated", .num parsed.1),
            ("duration", .num dur),
            ("tps", .num tps),
            ("first_50_chars", .str (sampleField parsed.2))]

/-- One iteration of the comparison-mode run loop
(source lines 1195-1265): identical to the test-mode iteration except
that the appended dict literal (lines 1253-1258) has no sample-text
key. -/
def performCompRun (p : Provider) (i : Nat) (oc : HttpOutcome) : Option RunRecord :=
  match oc with
  | .exn => none
  | .resp status dur body =>
    if status ≠ 200 then none
    else
      let parsed := parseResponse p body
      let tps := if dur > 0 then parsed.1 / dur else 0
      some [("run", .num ((i : ℚ) + 1)),
            ("tokens_generated", .num parsed.1),
            ("duration", .num dur),
            ("tps", .num tps)]

/-- The run loop `for i in range(num_runs)` accumulating `results`:
each iteration consumes one outcome at loop index `i` and appends the
produced record, when any. -/
def runLoop (f : Nat → HttpOutcome → Option RunRecord) : Nat → List HttpOutcome → List RunRecord
  | _, [] => []
  | i, oc :: rest =>
    match f i oc with
    | some r => r :: runLoop f (i + 1) rest
    | none => runLoop f (i + 1) rest

/-- The `results` list accumulated by the test-mode loop
(source lines 2015-2128): one optional record per outcome, failed runs
dropped. -/
def testRuns (p : Provider) (outs : List HttpOutcome) : List RunRecord :=
  runLoop (performTestRun p) 0 outs

/-- The `results` list accumulated by `perform_comparison_test`
(source lines 1156-1267). -/
def compRuns (p : Provider) (outs : List HttpOutcome) : List RunRecord :=
  runLoop (performCompRun p) 0 outs

/-- `sum(result["tps"] for result in results) / len(results)`
(source lines 2132 and 1059-1060). -/
def avgTps (rs : List RunRecord) : ℚ :=
  (rs.map (fun r => dgetNum r "tps")).sum / (rs.length : ℚ)

/-- The aggregate stored by `perform_test` on success
(source lines 2140-2150), restricted to the fields the claims are
about. -/
structure TestResult where
  runs : List RunRecord
  avg_tps : ℚ
deriving DecidableEq, Repr

/-- `perform_test` (source lines 1991-2155), as observed through its
aggregate result: `none` models the `else` branch at lines 2154-2155
(`Test failed - no valid results`, no average computed), `some` models
the `if results:` branch computing `avg_tps`. -/
def perform_test (p : Provider) (outs : List HttpOutcome) : Option TestResult :=
  let results := testRuns p outs
  if results = [] then none
  else some { runs := results, avg_tps := avgTps results }

/-- The profile fields of one side of a comparison that the comparison
summary reads. -/
structure CompSide where
  name : String
  provider : Provider
  model : String
deriving DecidableEq, Repr

/-- The display string built for the winner and loser
(source lines 1064-1072): `f"{profile_name} ({profile[:model]})"`. -/
def fmtSide (s : CompSide) : String :=
  s.name ++ " (" ++ s.model ++ ")"

/-- The comparison record built at source lines 1086-1115, restricted to
the fields the claims are about. -/
structure ComparisonResult where
  profile1_results : List RunRecord
  profile2_results : List RunRecord
  avg_tps1 : ℚ
  avg_tps2 : ℚ
  winner : String
  winner_tps : ℚ
  differenceAbsolute : ℚ
  differencePercent : ℚ
deriving DecidableEq, Repr

/-- Observable outcome of `perform_comparison`: the failure message of
lines 1128-1130, an uncaught `ZeroDivisionError` at line 1075, or the
stored comparison record. -/
inductive CompOutcome where
  | comparisonFailed
  | divByZero
  | completed (r : ComparisonResult)
deriving DecidableEq, Repr

/-- `perform_comparison` (source lines 1047-1130).  The guard at
line 1058 is Python truthiness of the two results lists; the winner
comparison at line 1063 is strict `>`; the percent difference at
line 1075 divides by `min(avg_tps1, avg_tps2)` with no guard, so a zero
minimum raises `ZeroDivisionError` before any record is built. -/
def perform_comparison (p1 p2 : CompSide) (outs1 outs2 : List HttpOutcome) : CompOutcome :=
  let r1 := compRuns p1.provider outs1
  let r2 := compRuns p2.provider outs2
  if r1 = [] ∨ r2 = [] then .comparisonFailed
  else
    let avg1 := avgTps r1
    let avg2 := avgTps r2
    let winner := if avg1 > avg2 then fmtSide p1 else fmtSide p2
    let winnerTps := if avg1 > avg2 then avg1 else avg2
    let difference := |avg1 - avg2|
    if min avg1 avg2 = 0 then .divByZero
    else
      .completed
        { profile1_results := r1
          profile2_results := r2
          avg_tps1 := avg1
          avg_tps2 := avg2
          winner := winner
          winner_tps := winnerTps
          differenceAbsolute := difference
          differencePercent := difference / min avg1 avg2 * 100 }

/-! Concrete fixtures used by the counterexamples and witnesses below. -/

/-- A profile side named `A` with an OpenAI provider and model `m1`. -/
def sideA : CompSide := ⟨"A", .openai, "m1"⟩

/-- A profile side named `B` with an OpenAI provider and model `m2`. -/
def sideB : CompSide := ⟨"B", .openai, "m2"⟩

/-- An OpenAI-shaped response body reporting 10 completion tokens with
generated text `hello world`. -/
def okBody10 : List (String × JVal) :=
  [("usage", .obj [("completion_tokens", .num 10)]),
   ("choices", .arr [.obj [("message", .obj [("content", .str "hello world")])]])]

/-- One successful run: HTTP 200, one second, body `okBody10`. -/
def outsOk : List HttpOutcome := [.resp 200 1 okBody10]

/-- The comparison-mode record produced for the single run of `outsOk`. -/
def okRun10 : RunRecord :=
  [("run", .num 1), ("tokens_generated", .num 10), ("duration", .num 1), ("tps", .num 10)]

/-- The test-mode record produced for the single run of `outsOk`. -/
def okTestRun10 : RunRecord :=
  [("run", .num 1), ("tokens_generated", .num 10), ("duration", .num 1), ("tps", .num 10),
   ("first_50_chars", .str "hello world...")]

/-- The aggregate produced by `perform_test` on `outsOk`. -/
def tr1 : TestResult := ⟨[okTestRun10], 10⟩

/-- The comparison record produced when both sides run `outsOk`: a tie
at 10 TPS, which the strict `>` of line 1063 awards to profile 2. -/
def cex1res : ComparisonResult :=
  { profile1_results := [okRun10]
    profile2_results := [okRun10]
    avg_tps1 := 10
    avg_tps2 := 10
    winner := "B (m2)"
    winner_tps := 10
    differenceAbsolute := 0
    differencePercent := 0 }

/-- An OpenAI-shaped response body reporting zero completion tokens and
carrying no generated text: a successful run measuring 0 TPS. -/
def zeroBody : List (String × JVal) :=
  [("usage", .obj [("completion_tokens", .num 0)])]

/-- One successful zero-TPS run. -/
def outsZero : List HttpOutcome := [.resp 200 1 zeroBody]

/-- An Anthropic-shaped response body whose `usage` block is present but
has no `output_tokens` key, with generated text `a b c d`. -/
def cex5body : List (String × JVal) :=
  [("usage", .obj [("input_tokens", .num 5)]),
   ("content", .arr [.obj [("text", .str "a b c d")]])]

/-- An Anthropic-shaped response body with no `usage` block at all and
generated text `a b c d` (scenario E of the spec). -/
def scenarioEBody : List (String × JVal) :=
  [("content", .arr [.obj [("text", .str "a b c d")]])]

/-- An OpenAI-shaped response body with reported tokens and the short
generated text `hello`. -/
def body7 : List (String × JVal) :=
  [("usage", .obj [("completion_tokens", .num 10)]),
   ("choices", .arr [.obj [("message", .obj [("content", .str "hello")])]])]

/-- The test-mode record produced for `body7`: the sample field holds
`hello...`, not the bare first-50-characters text `hello`. -/
def run7 : RunRecord :=
  [("run", .num 1), ("tokens_generated", .num 10), ("duration", .num 1), ("tps", .num 10),
   ("first_50_chars", .str "hello...")]

/-! General lemmas about the embedding, shared by several claims. -/

/-- Every record produced by the run loop comes from one of the
consumed outcomes. -/
theorem runLoop_mem {f : Nat → HttpOutcome → Option RunRecord} :
    ∀ {outs : List HttpOutcome} {i : Nat} {r : RunRecord},
      r ∈ runLoop f i outs → ∃ j oc, oc ∈ outs ∧ f j oc = some r := by
  intro outs
  induction outs with
  | nil => intro i r h; simp [runLoop] at h
  | cons oc rest ih =>
    intro i r h
    rw [runLoop] at h
    cases hf : f i oc with
    | some r0 =>
      rw [hf] at h
      rcases List.mem_cons.mp h with h1 | h1
      · exact ⟨i, oc, by simp, by rw [hf, h1]⟩
      · obtain ⟨j, oc2, hmem, hj⟩ := ih h1
        exact ⟨j, oc2, by simp [hmem], hj⟩
    | none =>
      rw [hf] at h
      obtain ⟨j, oc2, hmem, hj⟩ := ih h
      exact ⟨j, oc2, by simp [hmem], hj⟩

/-- A test-mode iteration only produces a record for a 200 response. -/
theorem performTestRun_success {p : Provider} {i : Nat} {oc : HttpOutcome} {r : RunRecord}
    (h : performTestRun p i oc = some r) : ∃ dur body, oc = .resp 200 dur body := by
  cases oc with
  | exn => simp [performTestRun] at h
  | resp status dur body =>
    refine ⟨dur, body, ?_⟩
    rw [performTestRun] at h
    split at h
    · exact absurd h (by simp)
    · rename_i hs
      simp at hs
      rw [hs]

/-- The word counter is zero on whitespace-only character lists. -/
theorem pyWordCountAux_ws :
    ∀ (cs : List Char) (b : Bool), (∀ c ∈ cs, c.isWhitespace) → pyWordCountAux cs b = 0 := by
  intro cs
  induction cs with
  | nil => intro b _; rfl
  | cons c rest ih =>
    intro b h
    have hc : c.isWhitespace := h c (by simp)
    rw [pyWordCountAux, if_pos hc]
    exact ih false (fun d hd => h d (by simp [hd]))

/-- Stripping trailing slashes is the identity on strings with no
trailing slash. -/
theorem rstripSlash_eq_self (s : String) (h : s.data.getLast? ≠ some '/') :
    rstripSlash s = s := by
  have hdw : s.data.reverse.dropWhile (fun c => c == '/') = s.data.reverse := by
    cases hrev : s.data.reverse with
    | nil => rfl
    | cons c cs =>
      have hc : c ≠ '/' := by
        intro hcc
        exact h (by rw [← List.head?_reverse, hrev, hcc]; rfl)
      simp [List.dropWhile_cons, hc]
  rw [rstripSlash, hdw]
  rw [List.reverse_reverse]

/-! Claim theorems. -/

/-- C1 counterexample: a comparison where both benchmarks succeeded and
the two averages are exactly equal (10 TPS each) completes with
`winner` equal to profile 2, not profile 1 — refuting the claim that
ties resolve to profile 1. -/
theorem c1_tie_counterexample :
    perform_comparison sideA sideB outsOk outsOk = .completed cex1res ∧
    cex1res.avg_tps1 = cex1res.avg_tps2 ∧
    cex1res.winner = fmtSide sideB ∧
    cex1res.winner ≠ fmtSide sideA := by
  refine ⟨?_, by norm_num [cex1res], by decide, by decide⟩
  norm_num +decide [perform_comparison, compRuns, runLoop, performCompRun, parseResponse,
    parseOpenAI, lookupField, jgetD, JVal.getField, asNum, asStr, avgTps, dgetNum, dget,
    wordEstimate, fmtSide, sideA, sideB, outsOk, okBody10, cex1res, okRun10]

/-- C1 (amended): in every comparison that completes, the winner is
profile 1 exactly when `avg_tps1 > avg_tps2` strictly; on a tie
(`avg_tps1 = avg_tps2`) the winner is profile 2, because line 1063
compares with strict `>`. -/
theorem c1_winner_strict_rule :
    ∀ (p1 p2 : CompSide) (outs1 outs2 : List HttpOutcome) (r : ComparisonResult),
      perform_comparison p1 p2 outs1 outs2 = .completed r →
      r.winner = if r.avg_tps1 > r.avg_tps2 then fmtSide p1 else fmtSide p2 := by
  intro p1 p2 o1 o2 r h
  simp only [perform_comparison] at h
  split at h
  · exact absurd h (by simp)
  · split at h
    · exact absurd h (by simp)
    · rw [CompOutcome.completed.injEq] at h
      subst h
      rfl

/-- Witness for C1: the winner rule applied to the concrete tie. -/
theorem c1_winner_strict_rule_witness :
    cex1res.winner = if cex1res.avg_tps1 > cex1res.avg_tps2 then fmtSide sideA else fmtSide sideB :=
  c1_winner_strict_rule sideA sideB outsOk outsOk cex1res
    (by norm_num +decide [perform_comparison, compRuns, runLoop, performCompRun, parseResponse,
      parseOpenAI, lookupField, jgetD, JVal.getField, asNum, asStr, avgTps, dgetNum, dget,
      wordEstimate, fmtSide, sideA, sideB, outsOk, okBody10, cex1res, okRun10])

/-- C2 counterexample: a comparison in which both benchmarks succeeded
(both results lists nonempty) but the smaller average is 0 reaches the
unguarded division at line 1075 and raises `ZeroDivisionError`
(modelled by the `divByZero` outcome) — refuting the claim that the
computation never raises and reports a null percent. -/
theorem c2_divzero_counterexample :
    compRuns sideA.provider outsZero ≠ [] ∧
    compRuns sideB.provider outsOk ≠ [] ∧
    perform_comparison sideA sideB outsZero outsOk = .divByZero := by
  refine ⟨?_, ?_, ?_⟩ <;>
    norm_num +decide [perform_comparison, compRuns, runLoop, performCompRun, parseResponse,
      parseOpenAI, lookupField, jgetD, JVal.getField, asNum, asStr, avgTps, dgetNum, dget,
      wordEstimate, fmtSide, sideA, sideB, outsOk, okBody10, outsZero, zeroBody]

/-- C2 (amended): when both benchmarks succeeded, the percent
difference is computed as `differenceAbsolute / min(avg1, avg2) * 100`
with no guard: a zero minimum raises `ZeroDivisionError` and no
comparison record is produced; only a nonzero minimum yields a record,
whose `differencePercent` is that quotient. -/
theorem c2_percent_rule :
    ∀ (p1 p2 : CompSide) (outs1 outs2 : List HttpOutcome),
      compRuns p1.provider outs1 ≠ [] →
      compRuns p2.provider outs2 ≠ [] →
      (min (avgTps (compRuns p1.provider outs1)) (avgTps (compRuns p2.provider outs2)) = 0 →
        perform_comparison p1 p2 outs1 outs2 = .divByZero) ∧
      (∀ r, perform_comparison p1 p2 outs1 outs2 = .completed r →
        min (avgTps (compRuns p1.provider outs1)) (avgTps (compRuns p2.provider outs2)) ≠ 0 ∧
        r.differencePercent =
          |avgTps (compRuns p1.provider outs1) - avgTps (compRuns p2.provider outs2)| /
            min (avgTps (compRuns p1.provider outs1)) (avgTps (compRuns p2.provider outs2)) * 100) := by
  intro p1 p2 o1 o2 h1 h2
  constructor
  · intro hmin
    simp only [perform_comparison]
    rw [if_neg (not_or.mpr ⟨h1, h2⟩), if_pos hmin]
  · intro r h
    simp only [perform_comparison] at h
    rw [if_neg (not_or.mpr ⟨h1, h2⟩)] at h
    split at h
    · exact absurd h (by simp)
    · rename_i hmin
      refine ⟨hmin, ?_⟩
      rw [CompOutcome.completed.injEq] at h
      subst h
      rfl

/-- Witness for C2: the rule applied to the concrete zero-average
comparison, yielding the raising outcome. -/
theorem c2_percent_rule_witness :
    perform_comparison sideA sideB outsZero outsOk = .divByZero :=
  (c2_percent_rule sideA sideB outsZero outsOk
    (by norm_num +decide [compRuns, runLoop, performCompRun, parseResponse, parseOpenAI,
      lookupField, jgetD, JVal.getField, asNum, asStr, wordEstimate, sideA, outsZero, zeroBody])
    (by norm_num +decide [compRuns, runLoop, performCompRun, parseResponse, parseOpenAI,
      lookupField, jgetD, JVal.getField, asNum, asStr, wordEstimate, sideB, outsOk, okBody10])).1
    (by norm_num +decide [compRuns, runLoop, performCompRun, parseResponse, parseOpenAI,
      lookupField, jgetD, JVal.getField, asNum, asStr, avgTps, dgetNum, dget, wordEstimate,
      sideA, sideB, outsOk, okBody10, outsZero, zeroBody])

/-- C3 counterexample: a run whose HTTP call returns status 500
produces no record at all — the `continue` at line 2064 drops it
instead of appending an errored Run — and a test consisting only of
that run ends with no results; likewise an exception produces no
record.  This refutes the claim that failed runs are recorded as
errored entries. -/
theorem c3_dropped_run_counterexample :
    performTestRun .openai 0 (.resp 500 1 []) = none ∧
    performTestRun .openai 0 .exn = none ∧
    perform_test .openai [.resp 500 1 []] = none := by
  refine ⟨by simp +decide [performTestRun], rfl, ?_⟩
  simp +decide [perform_test, testRuns, runLoop, performTestRun]

/-- C3 (amended): a run whose HTTP call returns a non-200 status or
raises an exception is silently dropped: no Run record is created or
appended, the loop moves on to the next run, and (the executor being a
total function) no exception propagates to the caller. -/
theorem c3_failed_runs_dropped :
    ∀ (p : Provider) (i : Nat) (status : Nat) (dur : ℚ) (body : List (String × JVal))
      (rest : List HttpOutcome),
      status ≠ 200 →
      performTestRun p i (.resp status dur body) = none ∧
      performTestRun p i .exn = none ∧
      runLoop (performTestRun p) i (.resp status dur body :: rest) =
        runLoop (performTestRun p) (i + 1) rest := by
  intro p i status dur body rest h
  have h1 : performTestRun p i (.resp status dur body) = none := by
    simp [performTestRun, h]
  refine ⟨h1, rfl, ?_⟩
  rw [runLoop, h1]

/-- Witness for C3: the dropped-run rule applied to a concrete 500
response. -/
theorem c3_failed_runs_dropped_witness :
    performTestRun .openai 0 (.resp 500 1 []) = none ∧
    performTestRun .openai 0 HttpOutcome.exn = none ∧
    runLoop (performTestRun .openai) 0 [.resp 500 1 []] =
      runLoop (performTestRun .openai) 1 [] :=
  c3_failed_runs_dropped .openai 0 500 1 [] [] (by norm_num)

/-- C4: the test fails (no aggregate, failure status) exactly when zero
runs succeeded; otherwise the reported average satisfies
`avg_tps * count = sum of tps`, i.e. it is the arithmetic mean of
`tokensPerSecond` over the recorded runs, and every recorded run came
from a successful (HTTP 200, non-raising) call — so the mean ranges
over successful runs only. -/
theorem c4_average_successful_runs :
    ∀ (p : Provider) (outs : List HttpOutcome),
      (perform_test p outs = none ↔ testRuns p outs = []) ∧
      (∀ tr, perform_test p outs = some tr →
        tr.runs = testRuns p outs ∧
        tr.runs ≠ [] ∧
        tr.avg_tps * (tr.runs.length : ℚ) = (tr.runs.map (fun r => dgetNum r "tps")).sum ∧
        (∀ r, r ∈ tr.runs → ∃ j dur body, performTestRun p j (.resp 200 dur body) = some r)) := by
  intro p outs
  constructor
  · rw [perform_test]
    split
    · rename_i he; simp [he]
    · rename_i he; simp [he]
  · intro tr h
    rw [perform_test] at h
    split at h
    · exact absurd h (by simp)
    · rename_i he
      rw [Option.some.injEq] at h
      subst h
      refine ⟨rfl, he, ?_, ?_⟩
      · have hlen : ((testRuns p outs).length : ℚ) ≠ 0 := by
          have : (testRuns p outs).length ≠ 0 := by simpa using he
          exact_mod_cast this
        exact div_mul_cancel₀ _ hlen
      · intro r hr
        obtain ⟨j, oc, hmem, hj⟩ := runLoop_mem hr
        obtain ⟨dur, body, rfl⟩ := performTestRun_success hj
        exact ⟨j, dur, body, hj⟩

/-- Witness for C4: applied to one successful 10-token, 1-second run,
giving a nonempty run list whose average satisfies the mean identity. -/
theorem c4_average_successful_runs_witness :
    tr1.runs = testRuns .openai outsOk ∧
    tr1.runs ≠ [] ∧
    tr1.avg_tps * (tr1.runs.length : ℚ) = (tr1.runs.map (fun r => dgetNum r "tps")).sum ∧
    (∀ r, r ∈ tr1.runs →
      ∃ j dur body, performTestRun .openai j (.resp 200 dur body) = some r) :=
  (c4_average_successful_runs .openai outsOk).2 tr1
    (by norm_num +decide [perform_test, testRuns, runLoop, performTestRun, parseResponse,
      parseOpenAI, lookupField, jgetD, JVal.getField, asNum, asStr, avgTps, dgetNum, dget,
      sampleField, strTake, outsOk, okBody10, tr1, okTestRun10])

/-- C5 counterexample: an Anthropic response whose `usage` block is
present but lacks `output_tokens` has no provider-reported count, yet
the parser returns 0 tokens instead of invoking the estimator on the
generated text `a b c d` (whose estimate is 26/5 = 5.2) — refuting the
claim that the fallback is invoked exactly when the reported count is
absent or not positive. -/
theorem c5_anthropic_counterexample :
    JVal.getField (JVal.obj [("input_tokens", JVal.num 5)]) "output_tokens" = none ∧
    parseResponse .anthropic cex5body = (0, "a b c d") ∧
    wordEstimate "a b c d" = 26 / 5 ∧
    (0 : ℚ) ≠ 26 / 5 := by
  refine ⟨?_, ?_, ?_, ?_⟩ <;>
    norm_num +decide [parseResponse, parseAnthropic, lookupField, jgetD, JVal.getField,
      asNum, asStr, wordEstimate, pyWordCount, pyWordCountAux, cex5body]

/-- C5 (amended): for OpenAI and OpenRouter the estimator runs exactly
when the reported count equals 0 and the generated text is nonempty (a
nonzero reported count — in particular any positive one — is used
as-is and never overridden); for Anthropic the estimator runs exactly
when the whole `usage` block is absent, while a present `usage` block
yields `usage.get("output_tokens", 0)` even when that key is missing
or its value is not positive. -/
theorem c5_fallback_rule :
    ∀ rd : List (String × JVal),
      (asNum (jgetD ((lookupField rd "usage").getD (.obj [])) "completion_tokens" (.num 0)) ≠ 0 →
        (parseOpenAI rd).1 =
          asNum (jgetD ((lookupField rd "usage").getD (.obj [])) "completion_tokens" (.num 0))) ∧
      (asNum (jgetD ((lookupField rd "usage").getD (.obj [])) "completion_tokens" (.num 0)) = 0 →
        (parseOpenAI rd).2 ≠ "" →
        (parseOpenAI rd).1 = wordEstimate (parseOpenAI rd).2) ∧
      (asNum (jgetD ((lookupField rd "usage").getD (.obj [])) "completion_tokens" (.num 0)) = 0 →
        (parseOpenAI rd).2 = "" →
        (parseOpenAI rd).1 = 0) ∧
      (lookupField rd "usage" = none →
        (parseAnthropic rd).1 = wordEstimate (parseAnthropic rd).2) ∧
      (∀ u, lookupField rd "usage" = some u →
        (parseAnthropic rd).1 = asNum (jgetD u "output_tokens" (.num 0))) ∧
      parseResponse .openrouter rd = parseOpenAI rd := by
  intro rd
  refine ⟨?_, ?_, ?_, ?_, ?_, rfl⟩
  · intro h
    simp only [parseOpenAI]
    rw [if_neg (fun hand => h hand.1)]
  · intro h0 hne
    simp only [parseOpenAI] at hne ⊢
    rw [if_pos ⟨h0, hne⟩]
  · intro h0 he
    simp only [parseOpenAI] at he ⊢
    rw [if_neg (fun hand => hand.2 he), h0]
  · intro h
    simp only [parseAnthropic, h]
  · intro u h
    simp only [parseAnthropic, h]

/-- Witness for C5: the Anthropic branch applied to the body whose
`usage` block lacks `output_tokens`. -/
theorem c5_fallback_rule_witness :
    (parseAnthropic cex5body).1 =
      asNum (jgetD (JVal.obj [("input_tokens", JVal.num 5)]) "output_tokens" (JVal.num 0)) :=
  (c5_fallback_rule cex5body).2.2.2.2.1 (JVal.obj [("input_tokens", JVal.num 5)])
    (by simp +decide [cex5body, lookupField])

/-- C6: the token estimator returns `wordCount * 1.3` with words split
on whitespace runs: any whitespace-only (or empty) text estimates to 0,
`one two three` estimates to 3.9 = 39/10, and an Anthropic response
with no `usage` block and text `a b c d` parses to 4 * 1.3 = 5.2 = 26/5
generated tokens (numbers in exact rational arithmetic). -/
theorem c6_token_estimator :
    (∀ s : String, (∀ c ∈ s.data, c.isWhitespace) → wordEstimate s = 0) ∧
    wordEstimate "" = 0 ∧
    wordEstimate "one two three" = 39 / 10 ∧
    parseResponse .anthropic scenarioEBody = (wordEstimate "a b c d", "a b c d") ∧
    wordEstimate "a b c d" = 26 / 5 ∧
    (26 : ℚ) / 5 = 4 * (13 / 10) := by
  refine ⟨?_, ?_, ?_, ?_, ?_, by norm_num⟩
  · intro s h
    rw [wordEstimate, pyWordCount, pyWordCountAux_ws s.data false h]
    norm_num
  all_goals
    norm_num +decide [parseResponse, parseAnthropic, lookupField, jgetD, JVal.getField,
      asNum, asStr, wordEstimate, pyWordCount, pyWordCountAux, scenarioEBody]

/-- Witness for C6: the whitespace-only case applied to a three-space
string. -/
theorem c6_token_estimator_witness : wordEstimate "   " = 0 :=
  c6_token_estimator.1 "   " (by decide)

/-- C7 counterexample: a successful run generating the text `hello`
stores `hello...` in the sample field, while the first 50 characters of
the generated text are just `hello` — refuting the claim that the
sample equals exactly the first 50 characters.  (Line 2118 appends
`"..."` to every nonempty sample by Python operator precedence.) -/
theorem c7_sample_counterexample :
    performTestRun .openai 0 (.resp 200 1 body7) = some run7 ∧
    dget run7 "first_50_chars" = some (.str "hello...") ∧
    strTake "hello" 50 = "hello" ∧
    ("hello..." : String) ≠ strTake "hello" 50 := by
  refine ⟨?_, ?_, ?_, ?_⟩ <;>
    norm_num +decide [performTestRun, parseResponse, parseOpenAI, lookupField, jgetD,
      JVal.getField, asNum, asStr, sampleField, strTake, dget, body7, run7]

/-- C7 (amended): in every successful run record the sample field holds
the first 50 characters of the generated text followed by `"..."` when
the text is nonempty, and the empty string when no text was
generated. -/
theorem c7_sample_rule :
    ∀ (p : Provider) (i : Nat) (dur : ℚ) (body : List (String × JVal)) (r : RunRecord),
      performTestRun p i (.resp 200 dur body) = some r →
      dget r "first_50_chars" =
        some (.str (if (parseResponse p body).2 = "" then ""
                    else strTake (parseResponse p body).2 50 ++ "...")) := by
  intro p i dur body r h
  rw [performTestRun] at h
  rw [if_neg (by norm_num)] at h
  rw [Option.some.injEq] at h
  subst h
  by_cases htext : (parseResponse p body).2 = "" <;>
    simp +decide [dget, sampleField, htext]

/-- Witness for C7: the sample rule applied to the `hello` run. -/
theorem c7_sample_rule_witness :
    dget run7 "first_50_chars" =
      some (.str (if (parseResponse .openai body7).2 = "" then ""
                  else strTake (parseResponse .openai body7).2 50 ++ "...")) :=
  c7_sample_rule .openai 0 1 body7 run7
    (by norm_num +decide [performTestRun, parseResponse, parseOpenAI, lookupField, jgetD,
      JVal.getField, asNum, asStr, sampleField, strTake, body7, run7])

/-- C8: for every base URL with no trailing slash, the completion
request URL is the base URL plus `/chat/completions` for OpenAI,
OpenRouter and Custom providers, and plus `/messages` for Anthropic. -/
theorem c8_api_url :
    ∀ baseUrl : String, baseUrl.data.getLast? ≠ some '/' →
      apiUrl .openai baseUrl = baseUrl ++ "/chat/completions" ∧
      apiUrl .openrouter baseUrl = baseUrl ++ "/chat/completions" ∧
      apiUrl .anthropic baseUrl = baseUrl ++ "/messages" ∧
      apiUrl .custom baseUrl = baseUrl ++ "/chat/completions" := by
  intro b h
  refine ⟨?_, ?_, ?_, ?_⟩ <;> simp [apiUrl, rstripSlash_eq_self b h]

/-- Witness for C8: the URL table applied to a concrete base URL. -/
theorem c8_api_url_witness :
    apiUrl .openai "https://api.example.com" = "https://api.example.com" ++ "/chat/completions" ∧
    apiUrl .openrouter "https://api.example.com" = "https://api.example.com" ++ "/chat/completions" ∧
    apiUrl .anthropic "https://api.example.com" = "https://api.example.com" ++ "/messages" ∧
    apiUrl .custom "https://api.example.com" = "https://api.example.com" ++ "/chat/completions" :=
  c8_api_url "https://api.example.com" (by decide)

/-- C9: whenever either side of a comparison produced zero successful
runs (its results list is empty — failed runs are never recorded), the
comparison reports failure: the outcome is `comparisonFailed`, so no
winner, no difference and no partial comparison record are produced. -/
theorem c9_comparison_failure :
    ∀ (p1 p2 : CompSide) (outs1 outs2 : List HttpOutcome),
      compRuns p1.provider outs1 = [] ∨ compRuns p2.provider outs2 = [] →
      perform_comparison p1 p2 outs1 outs2 = .comparisonFailed := by
  intro p1 p2 o1 o2 h
  simp only [perform_comparison]
  rw [if_pos h]

/-- Witness for C9: a comparison with no runs at all on either side. -/
theorem c9_comparison_failure_witness :
    perform_comparison sideA sideB [] [] = .comparisonFailed :=
  c9_comparison_failure sideA sideB [] [] (Or.inl rfl)

/-- C10: every record produced in comparison mode has exactly the keys
`run`, `tokens_generated`, `duration`, `tps` in this order and no
sample-text key, while every record produced in test mode has exactly
those keys plus a final `first_50_chars` key. -/
theorem c10_run_record_shape :
    ∀ (p : Provider) (outs : List HttpOutcome),
      (∀ r ∈ compRuns p outs,
        r.map Prod.fst = ["run", "tokens_generated", "duration", "tps"] ∧
        dget r "first_50_chars" = none) ∧
      (∀ r ∈ testRuns p outs,
        r.map Prod.fst = ["run", "tokens_generated", "duration", "tps", "first_50_chars"]) := by
  intro p outs
  constructor
  · intro r hr
    obtain ⟨j, oc, hmem, hj⟩ := runLoop_mem hr
    cases oc with
    | exn => simp [performCompRun] at hj
    | resp status dur body =>
      rw [performCompRun] at hj
      split at hj
      · exact absurd hj (by simp)
      · rw [Option.some.injEq] at hj
        subst hj
        exact ⟨rfl, by simp +decide [dget]⟩
  · intro r hr
    obtain ⟨j, oc, hmem, hj⟩ := runLoop_mem hr
    cases oc with
    | exn => simp [performTestRun] at hj
    | resp status dur body =>
      rw [performTestRun] at hj
      split at hj
      · exact absurd hj (by simp)
      · rw [Option.some.injEq] at hj
        subst hj
        rfl

/-- Witness for C10: the key-shape invariant applied to the concrete
records of one successful comparison run. -/
theorem c10_run_record_shape_witness :
    okRun10.map Prod.fst = ["run", "tokens_generated", "duration", "tps"] ∧
    dget okRun10 "first_50_chars" = none :=
  (c10_run_record_shape .openai outsOk).1 okRun10
    (by norm_num +decide [compRuns, runLoop, performCompRun, parseResponse, parseOpenAI,
      lookupField, jgetD, JVal.getField, asNum, asStr, outsOk, okBody10, okRun10])

end LlmTester
